import Mathlib

/-!
Verification of the arrow geometry solver and lifecycle manager of the
`bevy_arrows_plugin` crate (`src/vec_arrow.rs`).

The `f32` vector/quaternion arithmetic of `glam` is embedded in exact real
arithmetic: `Vec3` and `Quat` are triples/quadruples of `ℝ`, and
`try_normalize` fails exactly on the zero vector (the exact-arithmetic
reading of "the reciprocal length is finite and positive").
-/

namespace BevyArrows

noncomputable section

/-- 3D vector with exact real coordinates, modelling glam's `Vec3`. -/
@[ext]
structure Vec3 where
  x : ℝ
  y : ℝ
  z : ℝ

namespace Vec3

/-- The zero vector `Vec3::ZERO`. -/
def zero : Vec3 := ⟨0, 0, 0⟩

/-- Componentwise addition. -/
def add (a b : Vec3) : Vec3 := ⟨a.x + b.x, a.y + b.y, a.z + b.z⟩

/-- Componentwise negation. -/
def neg (a : Vec3) : Vec3 := ⟨-a.x, -a.y, -a.z⟩

/-- Componentwise subtraction. -/
def sub (a b : Vec3) : Vec3 := ⟨a.x - b.x, a.y - b.y, a.z - b.z⟩

instance : Add Vec3 := ⟨add⟩
instance : Neg Vec3 := ⟨neg⟩
instance : Sub Vec3 := ⟨sub⟩

@[simp] theorem add_x (a b : Vec3) : (a + b).x = a.x + b.x := rfl
@[simp] theorem add_y (a b : Vec3) : (a + b).y = a.y + b.y := rfl
@[simp] theorem add_z (a b : Vec3) : (a + b).z = a.z + b.z := rfl
@[simp] theorem neg_x (a : Vec3) : (-a).x = -a.x := rfl
@[simp] theorem neg_y (a : Vec3) : (-a).y = -a.y := rfl
@[simp] theorem neg_z (a : Vec3) : (-a).z = -a.z := rfl
@[simp] theorem sub_x (a b : Vec3) : (a - b).x = a.x - b.x := rfl
@[simp] theorem sub_y (a b : Vec3) : (a - b).y = a.y - b.y := rfl
@[simp] theorem sub_z (a b : Vec3) : (a - b).z = a.z - b.z := rfl

@[simp] theorem add_zero_vec (v : Vec3) : v + zero = v := by
  ext <;> simp [zero]

theorem neg_add_eq_sub (a b : Vec3) : -a + b = b - a := by
  ext <;> simp <;> ring

/-- Division of a vector by a scalar (`Vec3 / f32`). -/
def div (v : Vec3) (s : ℝ) : Vec3 := ⟨v.x / s, v.y / s, v.z / s⟩

/-- Multiplication of a vector by a scalar (`Vec3 * f32`). -/
def smul (v : Vec3) (s : ℝ) : Vec3 := ⟨v.x * s, v.y * s, v.z * s⟩

/-- Dot product, as in `glam::Vec3::dot`. -/
def dot (a b : Vec3) : ℝ := a.x * b.x + a.y * b.y + a.z * b.z

/-- Cross product, as in `glam::Vec3::cross`. -/
def cross (a b : Vec3) : Vec3 :=
  ⟨a.y * b.z - a.z * b.y, a.z * b.x - a.x * b.z, a.x * b.y - a.y * b.x⟩

/-- Euclidean length, as in `glam::Vec3::length` (`self.dot(self).sqrt()`). -/
def length (v : Vec3) : ℝ := Real.sqrt (dot v v)

/-- `glam::Vec3::normalize`: the vector scaled by the reciprocal of its length. -/
def normalize (v : Vec3) : Vec3 := v.div v.length

/-- `glam::Vec3::try_normalize`: `Some(normalized)` when the reciprocal of the
length is finite and positive; in exact arithmetic this fails precisely when
the length is zero. -/
def try_normalize (v : Vec3) : Option Vec3 :=
  if length v = 0 then none else some (normalize v)

/-- The `+Y` unit axis `Vec3::Y`. -/
def Y : Vec3 := ⟨0, 1, 0⟩

/-- `glam::Vec3::any_orthonormal_vector` (the Pixar orthonormal-basis formula);
`signum` of `+0.0` is `1.0` in `f32`, hence the `0 ≤ z` test. -/
def any_orthonormal_vector (v : Vec3) : Vec3 :=
  let sign : ℝ := if 0 ≤ v.z then 1 else -1
  let a : ℝ := -1 / (sign + v.z)
  let b : ℝ := v.x * v.y * a
  ⟨b, sign + v.y * v.y * a, -v.y⟩

theorem dot_self_nonneg (v : Vec3) : 0 ≤ dot v v := by
  unfold dot
  nlinarith [sq_nonneg v.x, sq_nonneg v.y, sq_nonneg v.z]

theorem length_eq_zero_iff (v : Vec3) : length v = 0 ↔ v = zero := by
  unfold length
  rw [Real.sqrt_eq_zero (dot_self_nonneg v)]
  constructor
  · intro h
    unfold dot at h
    have hx : v.x = 0 := by nlinarith [sq_nonneg v.x, sq_nonneg v.y, sq_nonneg v.z]
    have hy : v.y = 0 := by nlinarith [sq_nonneg v.x, sq_nonneg v.y, sq_nonneg v.z]
    have hz : v.z = 0 := by nlinarith [sq_nonneg v.x, sq_nonneg v.y, sq_nonneg v.z]
    cases v
    simp_all [zero]
  · intro h
    subst h
    simp [dot, zero]

theorem try_normalize_eq_none_iff (v : Vec3) : try_normalize v = none ↔ v = zero := by
  unfold try_normalize
  by_cases h : length v = 0
  · have hv := (length_eq_zero_iff v).mp h
    subst hv
    simp [h]
  · simp only [if_neg h]
    simp only [reduceCtorEq, false_iff]
    intro hv
    exact h ((length_eq_zero_iff v).mpr hv)

theorem try_normalize_of_ne_zero (v : Vec3) (h : v ≠ zero) :
    try_normalize v = some (normalize v) := by
  unfold try_normalize
  rw [if_neg]
  intro hl
  exact h ((length_eq_zero_iff v).mp hl)

theorem try_normalize_zero : try_normalize zero = none :=
  (try_normalize_eq_none_iff zero).mpr rfl

end Vec3

/-- Quaternion `(x, y, z, w)` with exact real coordinates, modelling glam's `Quat`. -/
@[ext]
structure Quat where
  x : ℝ
  y : ℝ
  z : ℝ
  w : ℝ

namespace Quat

/-- `Quat::IDENTITY`. -/
def IDENTITY : Quat := ⟨0, 0, 0, 1⟩

/-- Hamilton product, as in `glam::Quat::mul_quat`. -/
def mul (a b : Quat) : Quat :=
  ⟨a.w * b.x + a.x * b.w + a.y * b.z - a.z * b.y,
   a.w * b.y - a.x * b.z + a.y * b.w + a.z * b.x,
   a.w * b.z + a.x * b.y - a.y * b.x + a.z * b.w,
   a.w * b.w - a.x * b.x - a.y * b.y - a.z * b.z⟩

/-- Rotation of a vector by a quaternion, as in `glam::Quat::mul_vec3`
(`rhs * (w*w - b.b) + b * (rhs.b * 2) + b.cross(rhs) * (w * 2)`). -/
def mul_vec3 (q : Quat) (v : Vec3) : Vec3 :=
  let b : Vec3 := ⟨q.x, q.y, q.z⟩
  let b2 : ℝ := Vec3.dot b b
  v.smul (q.w * q.w - b2) + b.smul (Vec3.dot v b * 2) + (Vec3.cross b v).smul (q.w * 2)

/-- Quaternion length. -/
def length (q : Quat) : ℝ := Real.sqrt (q.x * q.x + q.y * q.y + q.z * q.z + q.w * q.w)

/-- `glam::Quat::normalize` (`self * self.length_recip()`). -/
def normalize (q : Quat) : Quat :=
  ⟨q.x / length q, q.y / length q, q.z / length q, q.w / length q⟩

/-- `glam::Quat::from_axis_angle`: `(axis * sin(angle/2), cos(angle/2))`. -/
def from_axis_angle (axis : Vec3) (angle : ℝ) : Quat :=
  ⟨axis.x * Real.sin (angle / 2), axis.y * Real.sin (angle / 2),
   axis.z * Real.sin (angle / 2), Real.cos (angle / 2)⟩

/-- `glam::Quat::from_rotation_arc`: the shortest-arc rotation taking the unit
vector `vfrom` to the unit vector `vto`.  The `f32` code compares the dot
product against `±(1 - 2ε)` to detect the parallel and antiparallel
singularities; in exact arithmetic (with unit inputs) those thresholds
become `dot = 1` and `dot = -1`. -/
def from_rotation_arc (vfrom vto : Vec3) : Quat :=
  let d : ℝ := Vec3.dot vfrom vto
  if 1 ≤ d then IDENTITY
  else if d ≤ -1 then from_axis_angle (Vec3.any_orthonormal_vector vfrom) Real.pi
  else
    let c : Vec3 := Vec3.cross vfrom vto
    normalize ⟨c.x, c.y, c.z, 1 + d⟩

theorem IDENTITY_mul (q : Quat) : IDENTITY.mul q = q := by
  cases q
  simp [mul, IDENTITY]

theorem mul_IDENTITY (q : Quat) : q.mul IDENTITY = q := by
  cases q
  simp [mul, IDENTITY]

theorem IDENTITY_mul_vec3 (v : Vec3) : IDENTITY.mul_vec3 v = v := by
  cases v
  ext <;> simp [mul_vec3, IDENTITY, Vec3.smul, Vec3.dot, Vec3.cross]

end Quat

/-- A Bevy `Transform`: translation, rotation and non-uniform scale. -/
structure Transform where
  translation : Vec3
  rotation : Quat
  scale : Vec3

namespace Transform

/-- `Transform::IDENTITY`, which is also `Transform::default()`. -/
def IDENTITY : Transform := ⟨Vec3.zero, Quat.IDENTITY, ⟨1, 1, 1⟩⟩

/-- `Transform::from_scale`. -/
def from_scale (s : Vec3) : Transform := ⟨Vec3.zero, Quat.IDENTITY, s⟩

/-- `Transform::from_translation`. -/
def from_translation (t : Vec3) : Transform := ⟨t, Quat.IDENTITY, ⟨1, 1, 1⟩⟩

/-- `Transform::rotate`: `self.rotation = rotation * self.rotation`. -/
def rotate (t : Transform) (q : Quat) : Transform := { t with rotation := q.mul t.rotation }

/-- `Transform::with_scale`. -/
def with_scale (t : Transform) (s : Vec3) : Transform := { t with scale := s }

end Transform

/-- The owner's Bevy `GlobalTransform` as consumed by the solver: only its
`rotation()` and `translation()` accessors are ever read. -/
structure GlobalTransform where
  rotation : Quat
  translation : Vec3

/-- `GlobalTransform::default()`: the identity transform. -/
def GlobalTransform.default : GlobalTransform := ⟨Quat.IDENTITY, Vec3.zero⟩

/-- `TargetCoordinateSpace`: the coordinate system the arrow's target is in. -/
inductive TargetCoordinateSpace
  | Global
  | Local

/-- Bevy `Color`, modelled by its four channels; the lifecycle code only
ever copies whole colors around. -/
structure Color where
  red : ℝ
  green : ℝ
  blue : ℝ
  alpha : ℝ

/-- `Color::WHITE`. -/
def Color.WHITE : Color := ⟨1, 1, 1, 1⟩

/-- The `VecArrow` component (the spec's `VectorDescriptor`). -/
structure VecArrow where
  target : Vec3
  target_coordinate_space : TargetCoordinateSpace
  thickness : ℝ
  color : Color
  tip_thickness : ℝ
  tip_length : ℝ

/-- `VecArrow::new`: the authored defaults. -/
def VecArrow.new (target : Vec3) (space : TargetCoordinateSpace) : VecArrow :=
  { target := target
    target_coordinate_space := space
    thickness := 0.1
    color := Color.WHITE
    tip_thickness := 0.075
    tip_length := 0.15 }

/-- `VecArrow::with_thickness`. -/
def VecArrow.with_thickness (a : VecArrow) (th : ℝ) : VecArrow := { a with thickness := th }

/-- `VecArrow::with_color`. -/
def VecArrow.with_color (a : VecArrow) (c : Color) : VecArrow := { a with color := c }

/-- The effective vector both solvers start from (`vec_arrow.rs`, the
`let target = match target_coordinate_space` at the top of
`get_body_transform` and `get_tip_transform`):
`Local` keeps the target, `Global` takes
`-parent_transform.unwrap_or_default().translation() + target`. -/
def effective_vec (parent_transform : Option GlobalTransform) (target : Vec3)
    (target_coordinate_space : TargetCoordinateSpace) : Vec3 :=
  match target_coordinate_space with
  | .Local => target
  | .Global => -(parent_transform.getD GlobalTransform.default).translation + target

/-- `get_body_transform` from `src/vec_arrow.rs`: the transform of the
cylinder forming the arrow's shaft. -/
def get_body_transform (parent_transform : Option GlobalTransform) (target : Vec3)
    (target_coordinate_space : TargetCoordinateSpace) : Transform :=
  let target1 := effective_vec parent_transform target target_coordinate_space
  match Vec3.try_normalize target1 with
  | none =>
    -- zero target: return a transform with a zero scale
    Transform.from_scale Vec3.zero
  | some normalized =>
    let my_position := target1.div 2
    let t0 := Transform.from_translation my_position
    let t1 := t0.rotate (Quat.from_rotation_arc Vec3.Y normalized)
    let my_scale : Vec3 := ⟨1, target1.length, 1⟩
    let my_local_transform := t1.with_scale my_scale
    match target_coordinate_space with
    | .Global =>
      { my_local_transform with
        translation := my_local_transform.translation
          + (parent_transform.getD GlobalTransform.default).translation }
    | .Local =>
      let pt := parent_transform.getD GlobalTransform.default
      { my_local_transform with
        translation := pt.rotation.mul_vec3 my_local_transform.translation + pt.translation
        rotation := pt.rotation.mul my_local_transform.rotation }

/-- `get_tip_transform` from `src/vec_arrow.rs`: the transform of the cone
forming the arrow's tip. -/
def get_tip_transform (parent_transform : Option GlobalTransform) (target : Vec3)
    (target_coordinate_space : TargetCoordinateSpace) (tip_length tip_thickness : ℝ) :
    Transform :=
  let target1 := effective_vec parent_transform target target_coordinate_space
  match Vec3.try_normalize target1 with
  | none =>
    Transform.from_scale Vec3.zero
  | some normalized =>
    let t0 := Transform.from_translation target1
    let t1 := t0.rotate (Quat.from_rotation_arc Vec3.Y normalized)
    let my_local_transform := { t1 with scale := (⟨tip_thickness, tip_length, tip_thickness⟩ : Vec3) }
    match target_coordinate_space with
    | .Global =>
      { my_local_transform with
        translation := my_local_transform.translation
          + (parent_transform.getD GlobalTransform.default).translation }
    | .Local =>
      let pt := parent_transform.getD GlobalTransform.default
      { my_local_transform with
        translation := pt.rotation.mul_vec3 my_local_transform.translation + pt.translation
        rotation := pt.rotation.mul my_local_transform.rotation }

/-! ## Shape lemmas for the two solvers -/

theorem get_body_transform_degenerate (pt : Option GlobalTransform) (t : Vec3)
    (s : TargetCoordinateSpace)
    (h : Vec3.try_normalize (effective_vec pt t s) = none) :
    get_body_transform pt t s = Transform.from_scale Vec3.zero := by
  simp only [get_body_transform, h]

theorem get_tip_transform_degenerate (pt : Option GlobalTransform) (t : Vec3)
    (s : TargetCoordinateSpace) (tl tt : ℝ)
    (h : Vec3.try_normalize (effective_vec pt t s) = none) :
    get_tip_transform pt t s tl tt = Transform.from_scale Vec3.zero := by
  simp only [get_tip_transform, h]

theorem get_body_transform_some_default (t : Vec3) (s : TargetCoordinateSpace) :
    get_body_transform (some GlobalTransform.default) t s = get_body_transform none t s := rfl

theorem get_tip_transform_some_default (t : Vec3) (s : TargetCoordinateSpace) (tl tt : ℝ) :
    get_tip_transform (some GlobalTransform.default) t s tl tt
      = get_tip_transform none t s tl tt := rfl

theorem get_body_transform_local_some (P : GlobalTransform) (t : Vec3)
    (h : t ≠ Vec3.zero) :
    get_body_transform (some P) t .Local =
      { translation := P.rotation.mul_vec3 (t.div 2) + P.translation
        rotation := P.rotation.mul (Quat.from_rotation_arc Vec3.Y t.normalize)
        scale := ⟨1, t.length, 1⟩ } := by
  simp only [get_body_transform, effective_vec, Vec3.try_normalize_of_ne_zero t h,
    Option.getD_some, Transform.from_translation, Transform.rotate, Transform.with_scale,
    Quat.mul_IDENTITY]

theorem get_tip_transform_local_some (P : GlobalTransform) (t : Vec3) (tl tt : ℝ)
    (h : t ≠ Vec3.zero) :
    get_tip_transform (some P) t .Local tl tt =
      { translation := P.rotation.mul_vec3 t + P.translation
        rotation := P.rotation.mul (Quat.from_rotation_arc Vec3.Y t.normalize)
        scale := ⟨tt, tl, tt⟩ } := by
  simp only [get_tip_transform, effective_vec, Vec3.try_normalize_of_ne_zero t h,
    Option.getD_some, Transform.from_translation, Transform.rotate,
    Quat.mul_IDENTITY]

theorem get_body_transform_none_local (t : Vec3) (h : t ≠ Vec3.zero) :
    get_body_transform none t .Local =
      { translation := t.div 2
        rotation := Quat.from_rotation_arc Vec3.Y t.normalize
        scale := ⟨1, t.length, 1⟩ } := by
  rw [← get_body_transform_some_default, get_body_transform_local_some GlobalTransform.default t h]
  simp [GlobalTransform.default, Quat.IDENTITY_mul, Quat.IDENTITY_mul_vec3]

theorem get_tip_transform_none_local (t : Vec3) (tl tt : ℝ) (h : t ≠ Vec3.zero) :
    get_tip_transform none t .Local tl tt =
      { translation := t
        rotation := Quat.from_rotation_arc Vec3.Y t.normalize
        scale := ⟨tt, tl, tt⟩ } := by
  rw [← get_tip_transform_some_default,
    get_tip_transform_local_some GlobalTransform.default t tl tt h]
  simp [GlobalTransform.default, Quat.IDENTITY_mul, Quat.IDENTITY_mul_vec3]

theorem get_body_transform_global_some (P : GlobalTransform) (t : Vec3)
    (h : -P.translation + t ≠ Vec3.zero) :
    get_body_transform (some P) t .Global =
      { translation := (-P.translation + t).div 2 + P.translation
        rotation := Quat.from_rotation_arc Vec3.Y (-P.translation + t).normalize
        scale := ⟨1, (-P.translation + t).length, 1⟩ } := by
  simp only [get_body_transform, effective_vec, Option.getD_some,
    Vec3.try_normalize_of_ne_zero _ h, Transform.from_translation, Transform.rotate,
    Transform.with_scale, Quat.mul_IDENTITY]

theorem get_tip_transform_global_some (P : GlobalTransform) (t : Vec3) (tl tt : ℝ)
    (h : -P.translation + t ≠ Vec3.zero) :
    get_tip_transform (some P) t .Global tl tt =
      { translation := (-P.translation + t) + P.translation
        rotation := Quat.from_rotation_arc Vec3.Y (-P.translation + t).normalize
        scale := ⟨tt, tl, tt⟩ } := by
  simp only [get_tip_transform, effective_vec, Option.getD_some,
    Vec3.try_normalize_of_ne_zero _ h, Transform.from_translation, Transform.rotate,
    Quat.mul_IDENTITY]

/-- The solver invocation for the shaft that `update_vec_arrow` makes for an
owner with global transform `gt` and descriptor `arrow`
(`vec_arrow.rs` lines 174-178). -/
def vec_arrow_body_transform (gt : GlobalTransform) (arrow : VecArrow) : Transform :=
  get_body_transform (some gt) arrow.target arrow.target_coordinate_space

/-- The solver invocation for the tip that `update_vec_arrow` makes
(`vec_arrow.rs` lines 179-185). -/
def vec_arrow_tip_transform (gt : GlobalTransform) (arrow : VecArrow) : Transform :=
  get_tip_transform (some gt) arrow.target arrow.target_coordinate_space
    arrow.tip_length arrow.tip_thickness

theorem get_body_transform_scale (pt : Option GlobalTransform) (t : Vec3)
    (s : TargetCoordinateSpace) (h : effective_vec pt t s ≠ Vec3.zero) :
    (get_body_transform pt t s).scale = ⟨1, (effective_vec pt t s).length, 1⟩ := by
  simp only [get_body_transform, Vec3.try_normalize_of_ne_zero _ h]
  cases s <;> rfl

/-! ## Claims about the geometry solver -/

/-- Claim C1: for every non-zero target vector, with `Local` space and an
identity (or absent) owner world transform, the shaft transform has
translation `target/2` and scale `(1, |target|, 1)`, the tip transform has
translation `target` and scale `(tip_thickness, tip_length, tip_thickness)`,
and both carry the shortest-arc rotation taking `+Y` to
`normalize(target)`. -/
theorem claim_C1_local_identity_geometry (pt : Option GlobalTransform) (t : Vec3)
    (tl tt : ℝ) (h : t ≠ Vec3.zero)
    (hpt : pt = none ∨ pt = some GlobalTransform.default) :
    (get_body_transform pt t .Local).translation = t.div 2 ∧
    (get_body_transform pt t .Local).scale = ⟨1, t.length, 1⟩ ∧
    (get_body_transform pt t .Local).rotation = Quat.from_rotation_arc Vec3.Y t.normalize ∧
    (get_tip_transform pt t .Local tl tt).translation = t ∧
    (get_tip_transform pt t .Local tl tt).scale = ⟨tt, tl, tt⟩ ∧
    (get_tip_transform pt t .Local tl tt).rotation
      = Quat.from_rotation_arc Vec3.Y t.normalize := by
  rcases hpt with rfl | rfl
  · rw [get_body_transform_none_local t h, get_tip_transform_none_local t tl tt h]
    exact ⟨rfl, rfl, rfl, rfl, rfl, rfl⟩
  · rw [get_body_transform_some_default, get_tip_transform_some_default,
      get_body_transform_none_local t h, get_tip_transform_none_local t tl tt h]
    exact ⟨rfl, rfl, rfl, rfl, rfl, rfl⟩

/-- Witness for C1 at target `(2,0,0)` with the default tip dimensions and no
owner transform. -/
theorem claim_C1_local_identity_geometry_witness :
    ((⟨2, 0, 0⟩ : Vec3) ≠ Vec3.zero) ∧
    ((get_body_transform none ⟨2, 0, 0⟩ .Local).translation = Vec3.div ⟨2, 0, 0⟩ 2 ∧
     (get_body_transform none ⟨2, 0, 0⟩ .Local).scale = ⟨1, Vec3.length ⟨2, 0, 0⟩, 1⟩ ∧
     (get_body_transform none ⟨2, 0, 0⟩ .Local).rotation
       = Quat.from_rotation_arc Vec3.Y (Vec3.normalize ⟨2, 0, 0⟩) ∧
     (get_tip_transform none ⟨2, 0, 0⟩ .Local 0.15 0.075).translation = ⟨2, 0, 0⟩ ∧
     (get_tip_transform none ⟨2, 0, 0⟩ .Local 0.15 0.075).scale = ⟨0.075, 0.15, 0.075⟩ ∧
     (get_tip_transform none ⟨2, 0, 0⟩ .Local 0.15 0.075).rotation
       = Quat.from_rotation_arc Vec3.Y (Vec3.normalize ⟨2, 0, 0⟩)) := by
  have hne : (⟨2, 0, 0⟩ : Vec3) ≠ Vec3.zero := by
    intro hv
    have hx := congrArg Vec3.x hv
    norm_num [Vec3.zero] at hx
  exact ⟨hne, claim_C1_local_identity_geometry none ⟨2, 0, 0⟩ 0.15 0.075 hne (Or.inl rfl)⟩

/-- Claim C2 counterexample: with target `(0,0,0)` in `Global` space and an
owner translated to `(0,0,5)`, the shaft transform does NOT have zero scale
(the effective vector is `(0,0,-5)` and the scale is `(1, 5, 1)`), refuting
"zero scale regardless of space or owner transform". -/
theorem claim_C2_counterexample :
    ¬ ((get_body_transform (some ⟨Quat.IDENTITY, ⟨0, 0, 5⟩⟩) Vec3.zero .Global).scale
        = Vec3.zero) := by
  have he : -(⟨Quat.IDENTITY, ⟨0, 0, 5⟩⟩ : GlobalTransform).translation + Vec3.zero
      ≠ Vec3.zero := by
    intro hv
    have hz := congrArg Vec3.z hv
    norm_num [Vec3.zero] at hz
  rw [get_body_transform_global_some _ Vec3.zero he]
  intro hv
  have hx := congrArg Vec3.x hv
  norm_num [Vec3.zero] at hx

/-- Claim C2 amended: for target `(0,0,0)` both shaft and tip transforms have
zero scale in `Local` space for every owner world transform; in `Global` space
this holds when the owner's translation is zero (including the absent-owner
case), since the effective vector is `target - owner_translation`. -/
theorem claim_C2_amended_zero_target_zero_scale (pt : Option GlobalTransform)
    (P : GlobalTransform) (tl tt : ℝ) (hP : P.translation = Vec3.zero) :
    (get_body_transform pt Vec3.zero .Local).scale = Vec3.zero ∧
    (get_tip_transform pt Vec3.zero .Local tl tt).scale = Vec3.zero ∧
    (get_body_transform (some P) Vec3.zero .Global).scale = Vec3.zero ∧
    (get_tip_transform (some P) Vec3.zero .Global tl tt).scale = Vec3.zero ∧
    (get_body_transform none Vec3.zero .Global).scale = Vec3.zero ∧
    (get_tip_transform none Vec3.zero .Global tl tt).scale = Vec3.zero := by
  have hneg : -Vec3.zero + Vec3.zero = Vec3.zero := by
    ext <;> simp [Vec3.zero]
  have heP : effective_vec (some P) Vec3.zero .Global = Vec3.zero := by
    simp only [effective_vec, Option.getD_some, hP]
    exact hneg
  have heN : effective_vec none Vec3.zero .Global = Vec3.zero := by
    simp only [effective_vec, Option.getD_none, GlobalTransform.default]
    exact hneg
  refine ⟨?_, ?_, ?_, ?_, ?_, ?_⟩
  · rw [get_body_transform_degenerate pt Vec3.zero .Local Vec3.try_normalize_zero]
    rfl
  · rw [get_tip_transform_degenerate pt Vec3.zero .Local tl tt Vec3.try_normalize_zero]
    rfl
  · rw [get_body_transform_degenerate (some P) Vec3.zero .Global
      (by rw [heP]; exact Vec3.try_normalize_zero)]
    rfl
  · rw [get_tip_transform_degenerate (some P) Vec3.zero .Global tl tt
      (by rw [heP]; exact Vec3.try_normalize_zero)]
    rfl
  · rw [get_body_transform_degenerate none Vec3.zero .Global
      (by rw [heN]; exact Vec3.try_normalize_zero)]
    rfl
  · rw [get_tip_transform_degenerate none Vec3.zero .Global tl tt
      (by rw [heN]; exact Vec3.try_normalize_zero)]
    rfl

/-- Witness for the amended C2 with a rotated, translated owner in `Local`
space and the identity owner in `Global` space. -/
theorem claim_C2_amended_zero_target_zero_scale_witness :
    (GlobalTransform.default.translation = Vec3.zero) ∧
    ((get_body_transform (some ⟨⟨0, 1, 0, 0⟩, ⟨1, 2, 3⟩⟩) Vec3.zero .Local).scale = Vec3.zero ∧
     (get_tip_transform (some ⟨⟨0, 1, 0, 0⟩, ⟨1, 2, 3⟩⟩) Vec3.zero .Local 0.15 0.075).scale
       = Vec3.zero ∧
     (get_body_transform (some GlobalTransform.default) Vec3.zero .Global).scale = Vec3.zero ∧
     (get_tip_transform (some GlobalTransform.default) Vec3.zero .Global 0.15 0.075).scale
       = Vec3.zero ∧
     (get_body_transform none Vec3.zero .Global).scale = Vec3.zero ∧
     (get_tip_transform none Vec3.zero .Global 0.15 0.075).scale = Vec3.zero) :=
  ⟨rfl, claim_C2_amended_zero_target_zero_scale (some ⟨⟨0, 1, 0, 0⟩, ⟨1, 2, 3⟩⟩)
    GlobalTransform.default 0.15 0.075 rfl⟩

/-- Claim C3 counterexample: in `Global` space with the owner translated to
`(0,0,5)` and target `(0,0,5)` (degenerate effective vector), the final shaft
translation is the world origin, not the local translation plus the owner
translation, refuting C3's "for every target". -/
theorem claim_C3_counterexample :
    ¬ ((get_body_transform (some ⟨Quat.IDENTITY, ⟨0, 0, 5⟩⟩) ⟨0, 0, 5⟩ .Global).translation
        = (get_body_transform none ((⟨0, 0, 5⟩ : Vec3) - ⟨0, 0, 5⟩) .Local).translation
          + (⟨0, 0, 5⟩ : Vec3)) := by
  have he : effective_vec (some ⟨Quat.IDENTITY, ⟨0, 0, 5⟩⟩) (⟨0, 0, 5⟩ : Vec3) .Global
      = Vec3.zero := by
    simp only [effective_vec, Option.getD_some]
    ext <;> simp [Vec3.zero]
  have hl : ((⟨0, 0, 5⟩ : Vec3) - ⟨0, 0, 5⟩) = Vec3.zero := by
    ext <;> simp [Vec3.zero]
  rw [get_body_transform_degenerate _ _ _ (by rw [he]; exact Vec3.try_normalize_zero), hl,
    get_body_transform_degenerate none Vec3.zero .Local Vec3.try_normalize_zero]
  intro hv
  have hz := congrArg Vec3.z hv
  norm_num [Transform.from_scale, Vec3.zero] at hz

/-- Claim C3 amended: for every owner world transform and every target in
`Global` space whose effective vector `e = target - owner_translation` is
non-zero, the final transforms are the local ones translated by
`owner_translation` only: `final.translation = local.translation +
owner_translation`, `final.rotation = local.rotation` (the owner's rotation is
never composed in), and the scale is the local scale. -/
theorem claim_C3_amended_global_compose (P : GlobalTransform) (t : Vec3) (tl tt : ℝ)
    (h : t - P.translation ≠ Vec3.zero) :
    effective_vec (some P) t .Global = t - P.translation ∧
    (get_body_transform (some P) t .Global).translation
      = (get_body_transform none (t - P.translation) .Local).translation + P.translation ∧
    (get_body_transform (some P) t .Global).rotation
      = (get_body_transform none (t - P.translation) .Local).rotation ∧
    (get_body_transform (some P) t .Global).scale
      = (get_body_transform none (t - P.translation) .Local).scale ∧
    (get_tip_transform (some P) t .Global tl tt).translation
      = (get_tip_transform none (t - P.translation) .Local tl tt).translation + P.translation ∧
    (get_tip_transform (some P) t .Global tl tt).rotation
      = (get_tip_transform none (t - P.translation) .Local tl tt).rotation ∧
    (get_tip_transform (some P) t .Global tl tt).scale
      = (get_tip_transform none (t - P.translation) .Local tl tt).scale := by
  have he : -P.translation + t = t - P.translation := Vec3.neg_add_eq_sub _ _
  have h2 : -P.translation + t ≠ Vec3.zero := by rw [he]; exact h
  rw [get_body_transform_global_some P t h2, get_tip_transform_global_some P t tl tt h2,
    get_body_transform_none_local _ h, get_tip_transform_none_local _ tl tt h, he]
  exact ⟨by simp [effective_vec, he], rfl, rfl, rfl, rfl, rfl, rfl⟩

/-- Witness for the amended C3 with owner rotation `(0,1,0,0)`, owner
translation `(0,0,5)` and target `(2,0,0)`. -/
theorem claim_C3_amended_global_compose_witness :
    ((⟨2, 0, 0⟩ : Vec3) - (⟨⟨0, 1, 0, 0⟩, ⟨0, 0, 5⟩⟩ : GlobalTransform).translation
      ≠ Vec3.zero) ∧
    (effective_vec (some ⟨⟨0, 1, 0, 0⟩, ⟨0, 0, 5⟩⟩) ⟨2, 0, 0⟩ .Global
      = (⟨2, 0, 0⟩ : Vec3) - (⟨⟨0, 1, 0, 0⟩, ⟨0, 0, 5⟩⟩ : GlobalTransform).translation ∧
     (get_body_transform (some ⟨⟨0, 1, 0, 0⟩, ⟨0, 0, 5⟩⟩) ⟨2, 0, 0⟩ .Global).translation
      = (get_body_transform none ((⟨2, 0, 0⟩ : Vec3)
          - (⟨⟨0, 1, 0, 0⟩, ⟨0, 0, 5⟩⟩ : GlobalTransform).translation) .Local).translation
        + (⟨⟨0, 1, 0, 0⟩, ⟨0, 0, 5⟩⟩ : GlobalTransform).translation ∧
     (get_body_transform (some ⟨⟨0, 1, 0, 0⟩, ⟨0, 0, 5⟩⟩) ⟨2, 0, 0⟩ .Global).rotation
      = (get_body_transform none ((⟨2, 0, 0⟩ : Vec3)
          - (⟨⟨0, 1, 0, 0⟩, ⟨0, 0, 5⟩⟩ : GlobalTransform).translation) .Local).rotation ∧
     (get_body_transform (some ⟨⟨0, 1, 0, 0⟩, ⟨0, 0, 5⟩⟩) ⟨2, 0, 0⟩ .Global).scale
      = (get_body_transform none ((⟨2, 0, 0⟩ : Vec3)
          - (⟨⟨0, 1, 0, 0⟩, ⟨0, 0, 5⟩⟩ : GlobalTransform).translation) .Local).scale ∧
     (get_tip_transform (some ⟨⟨0, 1, 0, 0⟩, ⟨0, 0, 5⟩⟩) ⟨2, 0, 0⟩ .Global 0.15 0.075).translation
      = (get_tip_transform none ((⟨2, 0, 0⟩ : Vec3)
          - (⟨⟨0, 1, 0, 0⟩, ⟨0, 0, 5⟩⟩ : GlobalTransform).translation) .Local 0.15 0.075).translation
        + (⟨⟨0, 1, 0, 0⟩, ⟨0, 0, 5⟩⟩ : GlobalTransform).translation ∧
     (get_tip_transform (some ⟨⟨0, 1, 0, 0⟩, ⟨0, 0, 5⟩⟩) ⟨2, 0, 0⟩ .Global 0.15 0.075).rotation
      = (get_tip_transform none ((⟨2, 0, 0⟩ : Vec3)
          - (⟨⟨0, 1, 0, 0⟩, ⟨0, 0, 5⟩⟩ : GlobalTransform).translation) .Local 0.15 0.075).rotation ∧
     (get_tip_transform (some ⟨⟨0, 1, 0, 0⟩, ⟨0, 0, 5⟩⟩) ⟨2, 0, 0⟩ .Global 0.15 0.075).scale
      = (get_tip_transform none ((⟨2, 0, 0⟩ : Vec3)
          - (⟨⟨0, 1, 0, 0⟩, ⟨0, 0, 5⟩⟩ : GlobalTransform).translation) .Local 0.15 0.075).scale) := by
  have hne : (⟨2, 0, 0⟩ : Vec3) - (⟨⟨0, 1, 0, 0⟩, ⟨0, 0, 5⟩⟩ : GlobalTransform).translation
      ≠ Vec3.zero := by
    intro hv
    have hx := congrArg Vec3.x hv
    norm_num [Vec3.zero] at hx
  exact ⟨hne, claim_C3_amended_global_compose ⟨⟨0, 1, 0, 0⟩, ⟨0, 0, 5⟩⟩ ⟨2, 0, 0⟩ 0.15 0.075 hne⟩

/-- Claim C4: for every non-zero target in `Local` space and every owner
rotation `R` with owner translation zero, the final shaft and tip transforms
are the identity-owner results rotated by exactly `R`: the translation is `R`
applied to the identity-owner translation, the rotation is `R` composed (on
the left) with the identity-owner rotation, and the scale is unchanged. -/
theorem claim_C4_local_owner_rotation (R : Quat) (t : Vec3) (tl tt : ℝ)
    (h : t ≠ Vec3.zero) :
    (get_body_transform (some ⟨R, Vec3.zero⟩) t .Local).translation
      = R.mul_vec3 (get_body_transform none t .Local).translation ∧
    (get_body_transform (some ⟨R, Vec3.zero⟩) t .Local).rotation
      = R.mul (get_body_transform none t .Local).rotation ∧
    (get_body_transform (some ⟨R, Vec3.zero⟩) t .Local).scale
      = (get_body_transform none t .Local).scale ∧
    (get_tip_transform (some ⟨R, Vec3.zero⟩) t .Local tl tt).translation
      = R.mul_vec3 (get_tip_transform none t .Local tl tt).translation ∧
    (get_tip_transform (some ⟨R, Vec3.zero⟩) t .Local tl tt).rotation
      = R.mul (get_tip_transform none t .Local tl tt).rotation ∧
    (get_tip_transform (some ⟨R, Vec3.zero⟩) t .Local tl tt).scale
      = (get_tip_transform none t .Local tl tt).scale := by
  rw [get_body_transform_local_some ⟨R, Vec3.zero⟩ t h, get_body_transform_none_local t h,
    get_tip_transform_local_some ⟨R, Vec3.zero⟩ t tl tt h,
    get_tip_transform_none_local t tl tt h]
  refine ⟨?_, rfl, rfl, ?_, rfl, rfl⟩ <;> simp

/-- Witness for C4 with the 180-degree rotation `(0,1,0,0)` about `+Y` and
target `(0,0,3)`. -/
theorem claim_C4_local_owner_rotation_witness :
    ((⟨0, 0, 3⟩ : Vec3) ≠ Vec3.zero) ∧
    ((get_body_transform (some ⟨⟨0, 1, 0, 0⟩, Vec3.zero⟩) ⟨0, 0, 3⟩ .Local).translation
      = Quat.mul_vec3 ⟨0, 1, 0, 0⟩ (get_body_transform none ⟨0, 0, 3⟩ .Local).translation ∧
     (get_body_transform (some ⟨⟨0, 1, 0, 0⟩, Vec3.zero⟩) ⟨0, 0, 3⟩ .Local).rotation
      = Quat.mul ⟨0, 1, 0, 0⟩ (get_body_transform none ⟨0, 0, 3⟩ .Local).rotation ∧
     (get_body_transform (some ⟨⟨0, 1, 0, 0⟩, Vec3.zero⟩) ⟨0, 0, 3⟩ .Local).scale
      = (get_body_transform none ⟨0, 0, 3⟩ .Local).scale ∧
     (get_tip_transform (some ⟨⟨0, 1, 0, 0⟩, Vec3.zero⟩) ⟨0, 0, 3⟩ .Local 0.15 0.075).translation
      = Quat.mul_vec3 ⟨0, 1, 0, 0⟩
          (get_tip_transform none ⟨0, 0, 3⟩ .Local 0.15 0.075).translation ∧
     (get_tip_transform (some ⟨⟨0, 1, 0, 0⟩, Vec3.zero⟩) ⟨0, 0, 3⟩ .Local 0.15 0.075).rotation
      = Quat.mul ⟨0, 1, 0, 0⟩ (get_tip_transform none ⟨0, 0, 3⟩ .Local 0.15 0.075).rotation ∧
     (get_tip_transform (some ⟨⟨0, 1, 0, 0⟩, Vec3.zero⟩) ⟨0, 0, 3⟩ .Local 0.15 0.075).scale
      = (get_tip_transform none ⟨0, 0, 3⟩ .Local 0.15 0.075).scale) := by
  have hne : (⟨0, 0, 3⟩ : Vec3) ≠ Vec3.zero := by
    intro hv
    have hz := congrArg Vec3.z hv
    norm_num [Vec3.zero] at hz
  exact ⟨hne, claim_C4_local_owner_rotation ⟨0, 1, 0, 0⟩ ⟨0, 0, 3⟩ 0.15 0.075 hne⟩

/-- Claim C5 counterexample: with a zero target the shaft's X scale is `0`,
not `1`, refuting "the shaft's X and Z scale components are always 1". -/
theorem claim_C5_counterexample :
    ¬ ((vec_arrow_body_transform GlobalTransform.default
          (VecArrow.new Vec3.zero .Local)).scale.x = 1) := by
  have h : Vec3.try_normalize (effective_vec (some GlobalTransform.default)
      (VecArrow.new Vec3.zero .Local).target
      (VecArrow.new Vec3.zero .Local).target_coordinate_space) = none :=
    Vec3.try_normalize_zero
  have hrw := get_body_transform_degenerate _ _ _ h
  simp only [vec_arrow_body_transform, hrw, Transform.from_scale]
  norm_num [Vec3.zero]

/-- Claim C5 amended: the shaft and tip transforms are independent of the
descriptor's `thickness` field (for any two thickness values and otherwise
identical inputs the transforms are equal), and the shaft's X and Z scale
components are `1` whenever the effective vector is non-zero (in the
degenerate zero-vector case they are `0`). -/
theorem claim_C5_amended_thickness_inert (gt : GlobalTransform) (a : VecArrow) (th : ℝ) :
    vec_arrow_body_transform gt (a.with_thickness th) = vec_arrow_body_transform gt a ∧
    vec_arrow_tip_transform gt (a.with_thickness th) = vec_arrow_tip_transform gt a ∧
    (effective_vec (some gt) a.target a.target_coordinate_space ≠ Vec3.zero →
      (vec_arrow_body_transform gt a).scale.x = 1 ∧
      (vec_arrow_body_transform gt a).scale.z = 1) := by
  refine ⟨rfl, rfl, fun h => ⟨?_, ?_⟩⟩ <;>
    simp [vec_arrow_body_transform, get_body_transform_scale _ _ _ h]

/-- Witness for the amended C5 at target `(2,0,0)` in `Local` space with
thickness changed from the default `0.1` to `7`. -/
theorem claim_C5_amended_thickness_inert_witness :
    (vec_arrow_body_transform GlobalTransform.default
        ((VecArrow.new ⟨2, 0, 0⟩ .Local).with_thickness 7)
      = vec_arrow_body_transform GlobalTransform.default (VecArrow.new ⟨2, 0, 0⟩ .Local)) ∧
    (vec_arrow_tip_transform GlobalTransform.default
        ((VecArrow.new ⟨2, 0, 0⟩ .Local).with_thickness 7)
      = vec_arrow_tip_transform GlobalTransform.default (VecArrow.new ⟨2, 0, 0⟩ .Local)) ∧
    (effective_vec (some GlobalTransform.default)
        (VecArrow.new ⟨2, 0, 0⟩ .Local).target
        (VecArrow.new ⟨2, 0, 0⟩ .Local).target_coordinate_space ≠ Vec3.zero) ∧
    ((vec_arrow_body_transform GlobalTransform.default
        (VecArrow.new ⟨2, 0, 0⟩ .Local)).scale.x = 1 ∧
     (vec_arrow_body_transform GlobalTransform.default
        (VecArrow.new ⟨2, 0, 0⟩ .Local)).scale.z = 1) := by
  have hne : effective_vec (some GlobalTransform.default)
      (VecArrow.new ⟨2, 0, 0⟩ .Local).target
      (VecArrow.new ⟨2, 0, 0⟩ .Local).target_coordinate_space ≠ Vec3.zero := by
    intro hv
    have hx := congrArg Vec3.x hv
    norm_num [Vec3.zero, effective_vec, VecArrow.new] at hx
  obtain ⟨h1, h2, h3⟩ := claim_C5_amended_thickness_inert GlobalTransform.default
    (VecArrow.new ⟨2, 0, 0⟩ .Local) 7
  exact ⟨h1, h2, hne, h3 hne⟩

/-- Claim C10: whenever the effective vector fails to normalize, both solvers
return exactly `Transform::from_scale(Vec3::ZERO)` — zero translation and
identity rotation — in both spaces and for every owner world transform, so the
invisible primitive is left at the world origin, never translated to the
owner's position. -/
theorem claim_C10_degenerate_zero_transform (pt : Option GlobalTransform) (t : Vec3)
    (s : TargetCoordinateSpace) (tl tt : ℝ)
    (h : Vec3.try_normalize (effective_vec pt t s) = none) :
    get_body_transform pt t s = Transform.from_scale Vec3.zero ∧
    get_tip_transform pt t s tl tt = Transform.from_scale Vec3.zero ∧
    (get_body_transform pt t s).translation = Vec3.zero ∧
    (get_body_transform pt t s).rotation = Quat.IDENTITY ∧
    (get_tip_transform pt t s tl tt).translation = Vec3.zero ∧
    (get_tip_transform pt t s tl tt).rotation = Quat.IDENTITY := by
  have hb := get_body_transform_degenerate pt t s h
  have ht := get_tip_transform_degenerate pt t s tl tt h
  exact ⟨hb, ht, by rw [hb]; rfl, by rw [hb]; rfl, by rw [ht]; rfl, by rw [ht]; rfl⟩

/-- Witness for C10 in `Global` space with an owner translated to the target
`(0,0,5)` (degenerate effective vector) — the result stays at the origin. -/
theorem claim_C10_degenerate_zero_transform_witness :
    (Vec3.try_normalize (effective_vec (some ⟨Quat.IDENTITY, ⟨0, 0, 5⟩⟩) ⟨0, 0, 5⟩ .Global)
      = none) ∧
    (get_body_transform (some ⟨Quat.IDENTITY, ⟨0, 0, 5⟩⟩) ⟨0, 0, 5⟩ .Global
      = Transform.from_scale Vec3.zero ∧
     get_tip_transform (some ⟨Quat.IDENTITY, ⟨0, 0, 5⟩⟩) ⟨0, 0, 5⟩ .Global 0.15 0.075
      = Transform.from_scale Vec3.zero ∧
     (get_body_transform (some ⟨Quat.IDENTITY, ⟨0, 0, 5⟩⟩) ⟨0, 0, 5⟩ .Global).translation
      = Vec3.zero ∧
     (get_body_transform (some ⟨Quat.IDENTITY, ⟨0, 0, 5⟩⟩) ⟨0, 0, 5⟩ .Global).rotation
      = Quat.IDENTITY ∧
     (get_tip_transform (some ⟨Quat.IDENTITY, ⟨0, 0, 5⟩⟩) ⟨0, 0, 5⟩ .Global 0.15 0.075).translation
      = Vec3.zero ∧
     (get_tip_transform (some ⟨Quat.IDENTITY, ⟨0, 0, 5⟩⟩) ⟨0, 0, 5⟩ .Global 0.15 0.075).rotation
      = Quat.IDENTITY) := by
  have he : effective_vec (some ⟨Quat.IDENTITY, ⟨0, 0, 5⟩⟩) (⟨0, 0, 5⟩ : Vec3) .Global
      = Vec3.zero := by
    simp only [effective_vec, Option.getD_some]
    ext <;> simp [Vec3.zero]
  have h : Vec3.try_normalize (effective_vec (some ⟨Quat.IDENTITY, ⟨0, 0, 5⟩⟩)
      (⟨0, 0, 5⟩ : Vec3) .Global) = none := by
    rw [he]
    exact Vec3.try_normalize_zero
  exact ⟨h, claim_C10_degenerate_zero_transform (some ⟨Quat.IDENTITY, ⟨0, 0, 5⟩⟩)
    ⟨0, 0, 5⟩ .Global 0.15 0.075 h⟩

/-! ## Lifecycle models

Entities are natural numbers.  Each system of `vec_arrow.rs` is modelled on
exactly the state it touches, per owner (the Rust systems loop over matched
owners; the loop body is what is embedded). -/

/-- The `VecArrowParts` component: the entity ids of the two arrow parts. -/
structure VecArrowParts where
  body : Nat
  tip : Nat

/-- The world state `on_remove_vec_arrow` touches: which entities are alive and
which carry a `VecArrowParts`. -/
structure DetachWorld where
  alive : Nat → Bool
  parts : Nat → Option VecArrowParts

/-- `Commands::entity(e).despawn()`: the entity and all its components go away. -/
def despawn (w : DetachWorld) (e : Nat) : DetachWorld :=
  { alive := fun k => if k = e then false else w.alive k
    parts := fun k => if k = e then none else w.parts k }

/-- `Commands::entity(e).remove::<VecArrowParts>()`. -/
def remove_vec_arrow_parts (w : DetachWorld) (e : Nat) : DetachWorld :=
  { w with parts := fun k => if k = e then none else w.parts k }

/-- One iteration of `on_remove_vec_arrow` (`vec_arrow.rs` lines 132-151) for a
single `entity` read from `RemovedComponents<VecArrow>`:
`parent_state_query.get(entity)` is `Ok` exactly when the entity is still
alive; on `Ok(Some(parts))` both parts are despawned and `VecArrowParts` is
removed from the parent, in every other case nothing happens. -/
def on_remove_vec_arrow (w : DetachWorld) (entity : Nat) : DetachWorld :=
  if w.alive entity then
    match w.parts entity with
    | some p => remove_vec_arrow_parts (despawn (despawn w p.body) p.tip) entity
    | none => w
  else w

/-- Marker components `VecArrowBody` / `VecArrowTip` distinguishing the two
primitives; the Rust queries filter with `Without` so that no entity matches
both. -/
inductive PrimKind
  | body
  | tip

/-- A spawned arrow primitive as seen by `update_vec_arrow`: its `Transform`,
its `MeshMaterial3d` handle, and which marker component it carries. -/
structure Prim where
  transform : Transform
  material : Nat
  kind : PrimKind

/-- The state `update_vec_arrow` touches: the primitives' components and the
`Assets<StandardMaterial>` store (a material is modelled by its `base_color`,
the only field the plugin reads or writes). -/
structure UpdateWorld where
  prims : Nat → Option Prim
  materials : Nat → Option Color

/-- `body_query.get_mut(e)`: succeeds iff `e` has the primitive components and
the `VecArrowBody` marker (and, by `Without<VecArrowTip>`, not the tip one). -/
def body_query_get (w : UpdateWorld) (e : Nat) : Option Prim :=
  match w.prims e with
  | some p =>
    match p.kind with
    | .body => some p
    | .tip => none
  | none => none

/-- `tip_query.get_mut(e)`: dual to `body_query_get`. -/
def tip_query_get (w : UpdateWorld) (e : Nat) : Option Prim :=
  match w.prims e with
  | some p =>
    match p.kind with
    | .tip => some p
    | .body => none
  | none => none

/-- `if let Some(material) = materials.get_mut(handle) { material.base_color = c }`:
update the asset if present, silently skip otherwise. -/
def set_material_color (ms : Nat → Option Color) (handle : Nat) (c : Color) :
    Nat → Option Color :=
  fun k => if k = handle then (ms handle).map (fun _ => c) else ms k

/-- The body of the `update_vec_arrow` loop (`vec_arrow.rs` lines 173-198) for
one matched owner `(global_transform, vec_arrow, parts)`.  The two
`.unwrap()` calls are modelled by returning `none` (a panic) when a primitive
lookup fails. -/
def update_vec_arrow (gt : GlobalTransform) (arrow : VecArrow) (parts : VecArrowParts)
    (w : UpdateWorld) : Option UpdateWorld :=
  let new_body_transform := vec_arrow_body_transform gt arrow
  let new_tip_transform := vec_arrow_tip_transform gt arrow
  match body_query_get w parts.body with
  | none => none
  | some body_prim =>
    let w1 : UpdateWorld :=
      { prims := fun k =>
          if k = parts.body then some { body_prim with transform := new_body_transform }
          else w.prims k
        materials := set_material_color w.materials body_prim.material arrow.color }
    match tip_query_get w1 parts.tip with
    | none => none
    | some tip_prim =>
      some
        { prims := fun k =>
            if k = parts.tip then some { tip_prim with transform := new_tip_transform }
            else w1.prims k
          materials := set_material_color w1.materials tip_prim.material arrow.color }

/-- Bevy's `Visibility` component. -/
inductive Visibility
  | Inherited
  | Hidden
  | Visible

/-- `EntityCommands::insert_if_new`: insert the value only when the component
is absent; an existing component is left untouched. -/
def insert_if_new (cur : Option α) (val : α) : Option α :=
  match cur with
  | some c => some c
  | none => some val

/-- The owner's spatial components that `on_attach_vec_arrow` ensures. -/
structure OwnerComponents where
  transform : Option Transform
  visibility : Option Visibility

/-- Everything the body of the `on_attach_vec_arrow` loop (`vec_arrow.rs`
lines 88-128) produces for one newly-added `VecArrow`: the owner's ensured
components, the spawned body and tip (transform and material color), and the
`VecArrowParts` record inserted on the owner. -/
structure AttachOutcome where
  owner : OwnerComponents
  body_transform : Transform
  tip_transform : Transform
  body_color : Color
  tip_color : Color
  parts : VecArrowParts

/-- The body of the `on_attach_vec_arrow` loop for one owner.  `body_id` and
`tip_id` stand for the fresh entity ids `Commands::spawn` allocates. -/
def on_attach_vec_arrow (owner : OwnerComponents)
    (parent_global_transform : Option GlobalTransform) (new_arrow : VecArrow)
    (body_id tip_id : Nat) : AttachOutcome :=
  { owner :=
      { transform := insert_if_new owner.transform Transform.IDENTITY
        visibility := insert_if_new owner.visibility Visibility.Inherited }
    body_transform := get_body_transform parent_global_transform new_arrow.target
      new_arrow.target_coordinate_space
    tip_transform := get_tip_transform parent_global_transform new_arrow.target
      new_arrow.target_coordinate_space new_arrow.tip_length new_arrow.tip_thickness
    body_color := new_arrow.color
    tip_color := new_arrow.color
    parts := { body := body_id, tip := tip_id } }

theorem body_query_get_eq_some (w : UpdateWorld) (e : Nat) (p : Prim) :
    body_query_get w e = some p ↔ w.prims e = some p ∧ p.kind = PrimKind.body := by
  constructor
  · intro h
    cases hp : w.prims e with
    | none => simp [body_query_get, hp] at h
    | some q =>
      cases hk : q.kind with
      | body =>
        simp [body_query_get, hp, hk] at h
        subst h
        exact ⟨rfl, hk⟩
      | tip => simp [body_query_get, hp, hk] at h
  · rintro ⟨hp, hk⟩
    simp [body_query_get, hp, hk]

theorem tip_query_get_eq_some (w : UpdateWorld) (e : Nat) (p : Prim) :
    tip_query_get w e = some p ↔ w.prims e = some p ∧ p.kind = PrimKind.tip := by
  constructor
  · intro h
    cases hp : w.prims e with
    | none => simp [tip_query_get, hp] at h
    | some q =>
      cases hk : q.kind with
      | tip =>
        simp [tip_query_get, hp, hk] at h
        subst h
        exact ⟨rfl, hk⟩
      | body => simp [tip_query_get, hp, hk] at h
  · rintro ⟨hp, hk⟩
    simp [tip_query_get, hp, hk]

theorem tip_query_get_congr (w w2 : UpdateWorld) (e : Nat)
    (hw : w2.prims e = w.prims e) : tip_query_get w2 e = tip_query_get w e := by
  unfold tip_query_get
  rw [hw]

/-! ## Claims about the lifecycle manager -/

/-- Claim C6: on detach, for every live owner entity: if the owner has a
recorded `VecArrowParts`, both recorded child entities are destroyed and
`VecArrowParts` is removed from the owner; if the owner has none, the
operation changes nothing (and raises no error). -/
theorem claim_C6_detach_cleanup (w : DetachWorld) (e : Nat) (h : w.alive e = true) :
    (∀ p : VecArrowParts, w.parts e = some p →
      (on_remove_vec_arrow w e).alive p.body = false ∧
      (on_remove_vec_arrow w e).alive p.tip = false ∧
      (on_remove_vec_arrow w e).parts e = none) ∧
    (w.parts e = none → on_remove_vec_arrow w e = w) := by
  constructor
  · intro p hp
    simp only [on_remove_vec_arrow, h, if_true, hp]
    refine ⟨?_, ?_, ?_⟩
    · simp only [remove_vec_arrow_parts, despawn]
      by_cases hbt : p.body = p.tip <;> simp [hbt]
    · simp [remove_vec_arrow_parts, despawn]
    · simp [remove_vec_arrow_parts, despawn]
  · intro hp
    simp only [on_remove_vec_arrow, h, if_true, hp]

/-- Witness for C6: a world with owner `0` (parts `1` and `2`) and a partless
live entity `3`. -/
theorem claim_C6_detach_cleanup_witness :
    (({ alive := fun k => decide (k < 4)
        parts := fun k => if k = 0 then some ⟨1, 2⟩ else none } : DetachWorld).alive 0
      = true) ∧
    (({ alive := fun k => decide (k < 4)
        parts := fun k => if k = 0 then some ⟨1, 2⟩ else none } : DetachWorld).parts 0
      = some ⟨1, 2⟩) ∧
    ((on_remove_vec_arrow
        { alive := fun k => decide (k < 4)
          parts := fun k => if k = 0 then some ⟨1, 2⟩ else none } 0).alive 1 = false ∧
     (on_remove_vec_arrow
        { alive := fun k => decide (k < 4)
          parts := fun k => if k = 0 then some ⟨1, 2⟩ else none } 0).alive 2 = false ∧
     (on_remove_vec_arrow
        { alive := fun k => decide (k < 4)
          parts := fun k => if k = 0 then some ⟨1, 2⟩ else none } 0).parts 0 = none) :=
  ⟨rfl, rfl,
    (claim_C6_detach_cleanup
      { alive := fun k => decide (k < 4)
        parts := fun k => if k = 0 then some ⟨1, 2⟩ else none } 0 rfl).1 ⟨1, 2⟩ rfl⟩

/-- Claim C7: during the update reaction, if an owner's `VecArrowParts` names
a body or tip entity whose primitive lookup fails, the update panics
(modelled by `none`) instead of silently skipping. -/
theorem claim_C7_update_panics_on_missing_prim (gt : GlobalTransform) (arrow : VecArrow)
    (parts : VecArrowParts) (w : UpdateWorld)
    (h : body_query_get w parts.body = none ∨ tip_query_get w parts.tip = none) :
    update_vec_arrow gt arrow parts w = none := by
  rcases h with h | h
  · simp only [update_vec_arrow, h]
  · cases hb : body_query_get w parts.body with
    | none => simp only [update_vec_arrow, hb]
    | some bp =>
      obtain ⟨hpw, hk⟩ := (body_query_get_eq_some w parts.body bp).mp hb
      simp only [update_vec_arrow, hb]
      split
      · rfl
      · rename_i tp htq
        exfalso
        obtain ⟨hpw2, hk2⟩ := (tip_query_get_eq_some _ _ _).mp htq
        by_cases he : parts.tip = parts.body
        · simp only [he, if_pos] at hpw2
          cases hpw2
          simp [hk] at hk2
        · simp only [if_neg he] at hpw2
          have h3 := (tip_query_get_eq_some w parts.tip tp).mpr ⟨hpw2, hk2⟩
          rw [h] at h3
          exact Option.noConfusion h3

/-- Witness for C7: an `UpdateWorld` with no primitives at all. -/
theorem claim_C7_update_panics_on_missing_prim_witness :
    (body_query_get ({ prims := fun _ => none, materials := fun _ => none } : UpdateWorld) 0
      = none) ∧
    update_vec_arrow GlobalTransform.default (VecArrow.new ⟨1, 0, 0⟩ .Local) ⟨0, 1⟩
      { prims := fun _ => none, materials := fun _ => none } = none :=
  ⟨rfl, claim_C7_update_panics_on_missing_prim GlobalTransform.default
    (VecArrow.new ⟨1, 0, 0⟩ .Local) ⟨0, 1⟩
    { prims := fun _ => none, materials := fun _ => none } (Or.inl rfl)⟩

/-- Claim C8: across two consecutive update ticks in which only the
descriptor's color changes, both primitives' material base color is
overwritten with the new color while the shaft and tip transforms written on
the second tick equal those of the first. -/
theorem claim_C8_color_only_update (gt : GlobalTransform) (a1 : VecArrow) (c2 : Color)
    (parts : VecArrowParts) (w0 w1 w2 : UpdateWorld) (bp tp : Prim)
    (h1 : update_vec_arrow gt a1 parts w0 = some w1)
    (h2 : update_vec_arrow gt { a1 with color := c2 } parts w1 = some w2)
    (hbp : body_query_get w1 parts.body = some bp)
    (htp : tip_query_get w1 parts.tip = some tp)
    (hmb : (w1.materials bp.material).isSome = true)
    (hmt : (w1.materials tp.material).isSome = true) :
    (w2.prims parts.body).map Prim.transform = (w1.prims parts.body).map Prim.transform ∧
    (w2.prims parts.tip).map Prim.transform = (w1.prims parts.tip).map Prim.transform ∧
    w2.materials bp.material = some c2 ∧
    w2.materials tp.material = some c2 := by
  have hba : vec_arrow_body_transform gt { a1 with color := c2 }
      = vec_arrow_body_transform gt a1 := rfl
  have hta : vec_arrow_tip_transform gt { a1 with color := c2 }
      = vec_arrow_tip_transform gt a1 := rfl
  obtain ⟨hXb, hkb⟩ := (body_query_get_eq_some w1 parts.body bp).mp hbp
  obtain ⟨hXt, hkt⟩ := (tip_query_get_eq_some w1 parts.tip tp).mp htp
  have hne : ¬ parts.body = parts.tip := by
    intro hco
    rw [hco, hXt] at hXb
    cases hXb
    rw [hkb] at hkt
    exact PrimKind.noConfusion hkt
  have hne2 : ¬ parts.tip = parts.body := fun hco => hne hco.symm
  -- unpack tick 1
  cases hb0 : body_query_get w0 parts.body with
  | none =>
    rw [update_vec_arrow, hb0] at h1
    exact Option.noConfusion h1
  | some bp0 =>
    simp only [update_vec_arrow, hb0] at h1
    split at h1
    · exact Option.noConfusion h1
    · rename_i tp0 htq0
      obtain ⟨hW01t, hkt0⟩ := (tip_query_get_eq_some _ _ _).mp htq0
      simp only [if_neg hne2] at hW01t
      cases h1
      -- w1 is now the explicit tick-1 record; read off the two primitives
      simp only [if_neg hne, if_pos rfl] at hXb
      simp only [if_pos rfl] at hXt
      cases hXb
      cases hXt
      -- unpack tick 2
      simp only [update_vec_arrow, hbp] at h2
      split at h2
      · exact Option.noConfusion h2
      · rename_i tp2 htq2
        obtain ⟨hW11t, hkt2⟩ := (tip_query_get_eq_some _ _ _).mp htq2
        simp only [if_neg hne2, if_pos rfl] at hW11t
        cases hW11t
        cases h2
        obtain ⟨cb, hcb⟩ := Option.isSome_iff_exists.mp hmb
        obtain ⟨ct, hct⟩ := Option.isSome_iff_exists.mp hmt
        refine ⟨?_, ?_, ?_, ?_⟩
        · simp [if_neg hne, if_pos rfl, hba]
        · simp [if_pos rfl, hta]
        · by_cases hm : bp0.material = tp0.material <;>
            simp_all [set_material_color]
        · by_cases hm : tp0.material = bp0.material <;>
            simp_all [set_material_color]

/-- Concrete two-primitive world for the two-tick color-change scenario:
entity 0 is the body (material 10), entity 1 the tip (material 11). -/
def update_world_example : UpdateWorld :=
  { prims := fun k =>
      if k = 0 then some ⟨Transform.IDENTITY, 10, PrimKind.body⟩
      else if k = 1 then some ⟨Transform.IDENTITY, 11, PrimKind.tip⟩
      else none
    materials := fun k =>
      if k = 10 then some Color.WHITE else if k = 11 then some Color.WHITE else none }

/-- The descriptor used on the first tick of the scenario. -/
def arrow_example : VecArrow := VecArrow.new ⟨0, 1, 0⟩ TargetCoordinateSpace.Local

/-- The world after the first update tick of the scenario. -/
def update_world_tick1 : UpdateWorld :=
  (update_vec_arrow GlobalTransform.default arrow_example ⟨0, 1⟩
    update_world_example).getD update_world_example

/-- The world after the second update tick of the scenario, with the
descriptor's color changed to red. -/
def update_world_tick2 : UpdateWorld :=
  (update_vec_arrow GlobalTransform.default { arrow_example with color := ⟨1, 0, 0, 1⟩ }
    ⟨0, 1⟩ update_world_tick1).getD update_world_example

/-- The body primitive as the second tick finds it. -/
def body_prim_tick1 : Prim :=
  (body_query_get update_world_tick1 0).getD ⟨Transform.IDENTITY, 0, PrimKind.body⟩

/-- The tip primitive as the second tick finds it. -/
def tip_prim_tick1 : Prim :=
  (tip_query_get update_world_tick1 1).getD ⟨Transform.IDENTITY, 0, PrimKind.tip⟩

/-- Witness for C8 on the concrete two-tick scenario. -/
theorem claim_C8_color_only_update_witness :
    (update_vec_arrow GlobalTransform.default arrow_example ⟨0, 1⟩ update_world_example
      = some update_world_tick1) ∧
    (update_vec_arrow GlobalTransform.default { arrow_example with color := ⟨1, 0, 0, 1⟩ }
      ⟨0, 1⟩ update_world_tick1 = some update_world_tick2) ∧
    (body_query_get update_world_tick1 0 = some body_prim_tick1) ∧
    (tip_query_get update_world_tick1 1 = some tip_prim_tick1) ∧
    ((update_world_tick1.materials body_prim_tick1.material).isSome = true) ∧
    ((update_world_tick1.materials tip_prim_tick1.material).isSome = true) ∧
    ((update_world_tick2.prims 0).map Prim.transform
      = (update_world_tick1.prims 0).map Prim.transform ∧
     (update_world_tick2.prims 1).map Prim.transform
      = (update_world_tick1.prims 1).map Prim.transform ∧
     update_world_tick2.materials body_prim_tick1.material = some ⟨1, 0, 0, 1⟩ ∧
     update_world_tick2.materials tip_prim_tick1.material = some ⟨1, 0, 0, 1⟩) :=
  ⟨rfl, rfl, rfl, rfl, rfl, rfl,
    claim_C8_color_only_update GlobalTransform.default arrow_example ⟨1, 0, 0, 1⟩ ⟨0, 1⟩
      update_world_example update_world_tick1 update_world_tick2
      body_prim_tick1 tip_prim_tick1 rfl rfl rfl rfl rfl rfl⟩

/-- Claim C9: on attach, the owner entity is given a default spatial
`Transform` and a default `Visibility` only if it lacks them; any component
already present is left unchanged. -/
theorem claim_C9_attach_inserts_if_new (owner : OwnerComponents)
    (pt : Option GlobalTransform) (arrow : VecArrow) (body_id tip_id : Nat) :
    (∀ tr : Transform, owner.transform = some tr →
      (on_attach_vec_arrow owner pt arrow body_id tip_id).owner.transform = some tr) ∧
    (owner.transform = none →
      (on_attach_vec_arrow owner pt arrow body_id tip_id).owner.transform
        = some Transform.IDENTITY) ∧
    (∀ vis : Visibility, owner.visibility = some vis →
      (on_attach_vec_arrow owner pt arrow body_id tip_id).owner.visibility = some vis) ∧
    (owner.visibility = none →
      (on_attach_vec_arrow owner pt arrow body_id tip_id).owner.visibility
        = some Visibility.Inherited) := by
  refine ⟨fun tr htr => ?_, fun hn => ?_, fun vis hv => ?_, fun hn => ?_⟩ <;>
    simp [on_attach_vec_arrow, insert_if_new, *]

/-- Witness for C9: an owner that already has a transform but no visibility
keeps its transform and receives `Visibility::Inherited`. -/
theorem claim_C9_attach_inserts_if_new_witness :
    ((⟨some (Transform.from_translation ⟨1, 2, 3⟩), none⟩ : OwnerComponents).transform
      = some (Transform.from_translation ⟨1, 2, 3⟩)) ∧
    ((⟨some (Transform.from_translation ⟨1, 2, 3⟩), none⟩ : OwnerComponents).visibility
      = none) ∧
    ((on_attach_vec_arrow ⟨some (Transform.from_translation ⟨1, 2, 3⟩), none⟩ none
        (VecArrow.new ⟨2, 0, 0⟩ .Local) 5 6).owner.transform
      = some (Transform.from_translation ⟨1, 2, 3⟩) ∧
     (on_attach_vec_arrow ⟨some (Transform.from_translation ⟨1, 2, 3⟩), none⟩ none
        (VecArrow.new ⟨2, 0, 0⟩ .Local) 5 6).owner.visibility
      = some Visibility.Inherited) :=
  ⟨rfl, rfl,
    (claim_C9_attach_inserts_if_new ⟨some (Transform.from_translation ⟨1, 2, 3⟩), none⟩
      none (VecArrow.new ⟨2, 0, 0⟩ .Local) 5 6).1 (Transform.from_translation ⟨1, 2, 3⟩) rfl,
    (claim_C9_attach_inserts_if_new ⟨some (Transform.from_translation ⟨1, 2, 3⟩), none⟩
      none (VecArrow.new ⟨2, 0, 0⟩ .Local) 5 6).2.2.2 rfl⟩

end

end BevyArrows
